import Mathlib

/-!
Shallow embedding of the AI ART Generator application (src/app.py) and
proofs of its specified properties.

The application is a single-file Streamlit tool: a Groq chat wrapper
(`groq_chat`), two prompt builders (`generate_art_prompt`,
`analyze_art_style`), a three-stage CrewAI pipeline (`run_crewai`), a PDF
exporter (`generate_pdf`), and three tab button handlers.  Remote services
(the Groq completion endpoint and the CrewAI orchestration runtime) are
modelled as oracles passed in as function arguments; every embedded
operation also reports the list of outbound completion requests it
performed, so that "zero network calls" properties are expressible.
-/

namespace ArtApp

/-- A single outbound request to the remote completion endpoint:
model identifier, prompt text and sampling temperature
(temperatures are decimal literals in the source; embedded as rationals). -/
structure CompletionRequest where
  model : String
  prompt : String
  temperature : Rat
deriving DecidableEq

/-- The remote completion endpoint, as an oracle: for a request it either
returns generated text or fails with an error message (in the source, a
raised exception rendered as a string). -/
def Remote : Type := CompletionRequest → Except String String

/-- Embedding of `groq_chat` (src/app.py lines 35-46).  `client` is the
global `client` of line 29: `none` when `GROQ_API_KEY` is unset.  The first
component is the string the Python function returns; the second records the
outbound requests performed (empty when unconfigured, exactly one
otherwise — the request is sent even when the call then fails). -/
def groq_chat (client : Option String) (remote : Remote)
    (prompt : String) (model : String) (temperature : Rat) :
    String × List CompletionRequest :=
  match client with
  | none => ("Groq is not configured. Add GROQ_API_KEY in .env.", [])
  | some _ =>
    let req : CompletionRequest := ⟨model, prompt, temperature⟩
    (match remote req with
     | Except.ok text => text
     | Except.error e => "Groq Error: " ++ e,
     [req])

/-- The fixed expert-persona instruction of `generate_art_prompt`
(src/app.py lines 53-57; adjacent Python string literals concatenated). -/
def artPromptSystem : String :=
  "You are an expert AI art prompt engineer. Generate a high-quality prompt with cinematic details, camera setup, lighting, mood, color palette, realism level, and composition."

/-- The prompt built by `generate_art_prompt` (src/app.py line 58):
the f-string "{system}\n\nDescription: {description}\nStyle: {style}". -/
def buildArtPrompt (description style : String) : String :=
  artPromptSystem ++ "\n\nDescription: " ++ description ++ "\nStyle: " ++ style

/-- Embedding of `generate_art_prompt` (src/app.py lines 52-59): builds the
art prompt and calls `groq_chat` with the default model and temperature 0.8. -/
def generate_art_prompt (client : Option String) (remote : Remote)
    (description style : String) : String × List CompletionRequest :=
  groq_chat client remote (buildArtPrompt description style)
    "llama-3.1-8b-instant" (8/10)

/-- The fixed critic instruction of `analyze_art_style`
(src/app.py lines 66-70). -/
def styleAnalysisSystem : String :=
  "You are a professional art critic. Analyze the description and explain style, genre, lighting, color theory, emotion, composition, and improvements."

/-- The prompt built by `analyze_art_style` (src/app.py line 71):
the f-string "{system}\n\nArtwork: {description}". -/
def buildStyleAnalysisPrompt (description : String) : String :=
  styleAnalysisSystem ++ "\n\nArtwork: " ++ description

/-- Embedding of `analyze_art_style` (src/app.py lines 65-72): builds the
analysis prompt and calls `groq_chat` with the default model and
temperature 0.55. -/
def analyze_art_style (client : Option String) (remote : Remote)
    (description : String) : String × List CompletionRequest :=
  groq_chat client remote (buildStyleAnalysisPrompt description)
    "llama-3.1-8b-instant" (55/100)

end ArtApp

namespace ArtApp

/-- Configuration of the CrewAI `LLM` object (src/app.py lines 80-84). -/
structure LLMConfig where
  model : String
  api_key : Option String
  temperature : Rat
deriving DecidableEq

/-- A CrewAI `Agent` (src/app.py lines 87-109): static descriptive strings
plus the language-model configuration; it carries no behaviour. -/
structure Agent where
  name : String
  role : String
  goal : String
  backstory : String
  llm : LLMConfig
deriving DecidableEq

/-- A CrewAI `Task` (src/app.py lines 112-128): an instruction, an
expected-output hint, and the agent assigned to it. -/
structure Task where
  description : String
  expected_output : String
  agent : Agent
deriving DecidableEq

/-- A CrewAI `Crew` (src/app.py lines 131-135): the ordered agents and
tasks handed to the orchestration runtime. -/
structure Crew where
  agents : List Agent
  tasks : List Task
  verbose : Bool
deriving DecidableEq

/-- Outcome of `crew.kickoff()` as reported by the orchestration oracle:
either the final text or an error (a raised exception rendered as a
string), together with the outbound completion requests the runtime
performed and the intermediate stage outputs it produced along the way. -/
structure KickoffOutcome where
  result : Except String String
  calls : List CompletionRequest
  stageOutputs : List String

/-- The CrewAI orchestration runtime (the external `crewai` library),
as an oracle over the crew it is given. -/
def Kickoff : Type := Crew → KickoffOutcome

/-- The crew built by `run_crewai` (src/app.py lines 80-135): the LLM
configuration, the three agents with their fixed persona strings, and the
three tasks.  Only task 1's description embeds the caller's query (via the
f-string on line 113); tasks 2 and 3 are fixed string literals. -/
def crewai_crew (apiKey : Option String) (query : String) : Crew :=
  let groq_llm : LLMConfig := ⟨"groq/llama-3.1-8b-instant", apiKey, 6/10⟩
  let art_director : Agent :=
    ⟨"Art Director", "Concept Creator",
     "Turn the user\x27s idea into a high-quality art concept.",
     "A seasoned art director specializing in cinematic visuals.",
     groq_llm⟩
  let style_expert : Agent :=
    ⟨"Style Expert", "Style Enhancer",
     "Refine the concept with lighting, colors, mood, and references.",
     "Expert in modern and classical art styles.",
     groq_llm⟩
  let photographer : Agent :=
    ⟨"Photographer", "Camera Consultant",
     "Add perfect camera, lens, framing, and realism settings.",
     "A world-class photographer with cinematic experience.",
     groq_llm⟩
  let task1 : Task :=
    ⟨"Create the core concept based on the user request: " ++ query,
     "A detailed concept with scene, subject, mood, and artistic idea.",
     art_director⟩
  let task2 : Task :=
    ⟨"Enhance the concept with lighting, color palette, style, and mood.",
     "A refined artistic style with detailed visual improvements.",
     style_expert⟩
  let task3 : Task :=
    ⟨"Add camera, lens, frame, angle, and composition enhancements.",
     "Perfect camera settings and cinematography instructions.",
     photographer⟩
  ⟨[art_director, style_expert, photographer], [task1, task2, task3], false⟩

/-- Embedding of `run_crewai` (src/app.py lines 78-141).  `apiKey` is the
value of `os.getenv` for the Groq key, `kick` the orchestration runtime.
The `role_hint` parameter is accepted, as in the source, and never used.
The first component is the returned string (`str(result)` on success, the
"CrewAI Error: " message on a caught exception); the second records the
completion requests the runtime performed. -/
def run_crewai (apiKey : Option String) (kick : Kickoff)
    (query : String) (role_hint : Option String) :
    String × List CompletionRequest :=
  let crew := crewai_crew apiKey query
  let outcome := kick crew
  match outcome.result with
  | Except.ok r => (r, outcome.calls)
  | Except.error e => ("CrewAI Error: " ++ e, outcome.calls)

/-- Truth value of the Python guard `not s.strip()` (src/app.py lines 202,
222, 243): a string is falsy after stripping iff every character is
whitespace (equivalently the string is empty or whitespace-only). -/
def isBlank (s : String) : Bool :=
  s.data.all Char.isWhitespace

/-- Embedding of the tab-1 "Generate Prompt" button handler
(src/app.py lines 201-207): an empty (blank) description is rejected with
the `st.error` message before `generate_art_prompt` is ever invoked. -/
def tab1_generate (client : Option String) (remote : Remote)
    (desc style : String) : String × List CompletionRequest :=
  if isBlank desc then ("Please enter a description.", [])
  else generate_art_prompt client remote desc style

/-- Embedding of the tab-2 "Analyze Style" button handler
(src/app.py lines 221-227). -/
def tab2_analyze (client : Option String) (remote : Remote)
    (desc : String) : String × List CompletionRequest :=
  if isBlank desc then ("Please enter a description.", [])
  else analyze_art_style client remote desc

/-- Embedding of the tab-3 "Run CrewAI Workflow" button handler
(src/app.py lines 242-248): the UI passes the role-hint text box straight
through to `run_crewai`. -/
def tab3_run (apiKey : Option String) (kick : Kickoff)
    (query roleHint : String) : String × List CompletionRequest :=
  if isBlank query then ("Please enter a question.", [])
  else run_crewai apiKey kick query (some roleHint)

/-- Character-level embedding of `xml.sax.saxutils.escape` as called on
line 174/176 of src/app.py.  The Python stdlib function performs the three
sequential replacements `& -> &amp;`, `< -> &lt;`, `> -> &gt;`; since each
replaces a single distinct character with an entity that introduces no
further occurrence of a later-replaced character, the sequence equals this
per-character map. -/
def escapeL : List Char → List Char
  | [] => []
  | c :: cs =>
    (if c = '&' then ['&', 'a', 'm', 'p', ';']
     else if c = '<' then ['&', 'l', 't', ';']
     else if c = '>' then ['&', 'g', 't', ';']
     else [c]) ++ escapeL cs

/-- String form of `xml.sax.saxutils.escape` (src/app.py line 16). -/
def escape (s : String) : String :=
  ⟨escapeL s.data⟩

/-- Character-level embedding of `.replace("\n", "<br/>")` as applied on
line 176 of src/app.py to the already-escaped body (the escaped text can
neither contain nor create new newline characters, so the global string
replacement equals this per-character map). -/
def brL : List Char → List Char
  | [] => []
  | c :: cs =>
    (if c = '\n' then ['<', 'b', 'r', '/', '>'] else [c]) ++ brL cs

/-- The markup text of the body paragraph built on line 176 of src/app.py:
`escape(body).replace("\n", "<br/>")`. -/
def pdf_body_markup (body : String) : String :=
  ⟨brL (escapeL body.data)⟩

/-- A reportlab `ParagraphStyle` as configured in src/app.py: name, font
name, font size, optional text colour, space after, and leading (fields
not set in the source keep reportlab's defaults, modelled as `none`/0). -/
structure ParagraphStyle where
  name : String
  fontName : String
  fontSize : Nat
  textColor : Option String
  spaceAfter : Nat
  leading : Nat
deriving DecidableEq

/-- The title style of src/app.py lines 158-164. -/
def title_style : ParagraphStyle :=
  ⟨"title", "Helvetica-Bold", 20, some "#e26a4a", 12, 0⟩

/-- The body style of src/app.py lines 166-171. -/
def body_style : ParagraphStyle :=
  ⟨"body", "Helvetica", 12, none, 0, 16⟩

/-- A reportlab flowable as used by the exporter: a `Paragraph` holding
markup text and a style, or a `Spacer`. -/
inductive Flowable where
  | paragraph : String → ParagraphStyle → Flowable
  | spacer : Nat → Nat → Flowable
deriving DecidableEq

/-- The `story` list built on lines 173-177 of src/app.py: the escaped
title paragraph, a spacer, and the escaped-and-line-broken body
paragraph. -/
def pdf_story (title body : String) : List Flowable :=
  [Flowable.paragraph (escape title) title_style,
   Flowable.spacer 1 10,
   Flowable.paragraph (pdf_body_markup body) body_style]

/-- The markup texts of the paragraphs of a story, in order. -/
def storyTexts (story : List Flowable) : List String :=
  story.filterMap fun f =>
    match f with
    | Flowable.paragraph text _ => some text
    | Flowable.spacer _ _ => none

/-- Modelled from the spec: reportlab's `SimpleDocTemplate.build` (the PDF
page-layout library) is out of scope in the repository; per the spec the
layout engine "must produce a non-empty byte stream for any non-empty
title and any body" and "is responsible for pagination".  It is modelled
as a fixed document header ("%PDF") followed by an encoding of each
flowable.  The A4 page size and 20 mm margins of src/app.py lines 149-156
are configuration consumed by this engine. -/
def doc_build (story : List Flowable) : List UInt8 :=
  let flowableBytes : Flowable → List UInt8 := fun f =>
    match f with
    | Flowable.paragraph text _ => text.data.map (fun c => UInt8.ofNat c.toNat)
    | Flowable.spacer _ _ => [32]
  [37, 80, 68, 70] ++ (story.map flowableBytes).flatten

/-- Embedding of `generate_pdf` (src/app.py lines 147-180): builds the
story from the escaped title and body and hands it to the layout engine,
returning the buffer's bytes. -/
def generate_pdf (title body : String) : List UInt8 :=
  doc_build (pdf_story title body)

/-- Inverse of the markup escaping: decodes the three entities emitted by
`escapeL` back to their characters (used to state that escaped text
renders literally — the markup consumer recovers exactly the raw text). -/
def unescapeL : List Char → List Char
  | [] => []
  | c :: cs =>
    if c = '&' then
      if ['a', 'm', 'p', ';'].isPrefixOf cs then '&' :: unescapeL (cs.drop 4)
      else if ['l', 't', ';'].isPrefixOf cs then '<' :: unescapeL (cs.drop 3)
      else if ['g', 't', ';'].isPrefixOf cs then '>' :: unescapeL (cs.drop 3)
      else c :: unescapeL cs
    else c :: unescapeL cs
termination_by l => l.length
decreasing_by all_goals simp [List.length_drop] <;> omega

/-- Whether a character list starts with the line-break marker `<br/>`. -/
def isBrAt (l : List Char) : Bool :=
  ['<', 'b', 'r', '/', '>'].isPrefixOf l

/-- Number of occurrences of the line-break marker `<br/>` in a character
list (the marker cannot overlap itself, so a sliding scan counts exactly
the occurrences). -/
def countBr : List Char → Nat
  | [] => 0
  | c :: rest => (if isBrAt (c :: rest) then 1 else 0) + countBr rest

/-- `hay` contains `needle` as a contiguous substring. -/
def containsStr (hay needle : String) : Prop :=
  ∃ a b : String, hay = a ++ needle ++ b

/-- Decoding inverts the markup escaping: the characters the markup
consumer reads back from escaped text are exactly the raw input, so
markup-special characters in the input render literally. -/
theorem unescapeL_escapeL (l : List Char) : unescapeL (escapeL l) = l := by
  induction l with
  | nil => simp [escapeL, unescapeL]
  | cons c cs ih =>
    by_cases h1 : c = '&'
    · subst h1
      simp [escapeL, unescapeL, List.isPrefixOf, ih]
    · by_cases h2 : c = '<'
      · subst h2
        simp [escapeL, unescapeL, List.isPrefixOf, ih]
      · by_cases h3 : c = '>'
        · subst h3
          simp [escapeL, unescapeL, List.isPrefixOf, ih]
        · simp [escapeL, unescapeL, h1, h2, h3, ih]

/-- Escaped text contains no raw `<` character: no markup tag can open
inside it. -/
theorem lt_not_mem_escapeL (l : List Char) : '<' ∉ escapeL l := by
  induction l with
  | nil => simp [escapeL]
  | cons c cs ih =>
    intro hmem
    simp only [escapeL, List.mem_append] at hmem
    rcases hmem with hmem | hmem
    · split_ifs at hmem with h1 h2 h3
      · exact absurd hmem (by decide)
      · exact absurd hmem (by decide)
      · exact absurd hmem (by decide)
      · rw [List.mem_singleton] at hmem
        exact h2 hmem.symm
    · exact ih hmem

/-- Escaped text contains no raw `>` character. -/
theorem gt_not_mem_escapeL (l : List Char) : '>' ∉ escapeL l := by
  induction l with
  | nil => simp [escapeL]
  | cons c cs ih =>
    intro hmem
    simp only [escapeL, List.mem_append] at hmem
    rcases hmem with hmem | hmem
    · split_ifs at hmem with h1 h2 h3
      · exact absurd hmem (by decide)
      · exact absurd hmem (by decide)
      · exact absurd hmem (by decide)
      · rw [List.mem_singleton] at hmem
        exact h3 hmem.symm
    · exact ih hmem

/-- Escaping preserves the number of newline characters (the three
entities contain none, and newlines pass through unchanged). -/
theorem count_nl_escapeL (l : List Char) :
    (escapeL l).count '\n' = l.count '\n' := by
  induction l with
  | nil => rfl
  | cons c cs ih =>
    simp only [escapeL, List.count_append]
    split_ifs with h1 h2 h3 <;> simp_all [List.count_cons] <;>
      try exact Nat.add_comm _ _

/-- A list not starting with `<` does not start with the line-break
marker. -/
theorem isBrAt_eq_false {c : Char} (rest : List Char) (h : c ≠ '<') :
    isBrAt (c :: rest) = false := by
  simp only [isBrAt, List.isPrefixOf, Bool.and_eq_false_iff, beq_eq_false_iff_ne]
  exact Or.inl fun hc => h hc.symm

/-- Scanning past a character that is not `<` finds the same markers. -/
theorem countBr_cons_ne {c : Char} (rest : List Char) (h : c ≠ '<') :
    countBr (c :: rest) = countBr rest := by
  simp [countBr, isBrAt_eq_false rest h]

/-- In a list that contains no raw `<`, the line-break replacement emits
exactly one marker per newline and the scan finds exactly those markers. -/
theorem countBr_brL {l : List Char} (h : '<' ∉ l) :
    countBr (brL l) = l.count '\n' := by
  induction l with
  | nil => rfl
  | cons c cs ih =>
    have hc : c ≠ '<' := fun hcc => h (hcc ▸ List.mem_cons_self c cs)
    have hcs : '<' ∉ cs := fun hmem => h (List.mem_cons_of_mem c hmem)
    by_cases hnl : c = '\n'
    · subst hnl
      have hbr : brL ('\n' :: cs) = '<' :: 'b' :: 'r' :: '/' :: '>' :: brL cs := by
        simp [brL]
      rw [hbr, countBr, countBr_cons_ne _ (by decide), countBr_cons_ne _ (by decide),
          countBr_cons_ne _ (by decide), countBr_cons_ne _ (by decide), ih hcs]
      simp [isBrAt, List.isPrefixOf, List.count_cons]
      omega
    · have hbr : brL (c :: cs) = c :: brL cs := by simp [brL, hnl]
      rw [hbr, countBr_cons_ne _ hc, ih hcs]
      simp [List.count_cons, hnl]

/-- The body paragraph of the export contains exactly one line-break
marker per newline character of the raw body. -/
theorem countBr_markup (body : String) :
    countBr (pdf_body_markup body).data = body.data.count '\n' := by
  have h1 : countBr (brL (escapeL body.data)) = (escapeL body.data).count '\n' :=
    countBr_brL (lt_not_mem_escapeL body.data)
  have h2 : (escapeL body.data).count '\n' = body.data.count '\n' :=
    count_nl_escapeL body.data
  exact h1.trans h2

/-- The line-break replacement is the identity on newline-free text. -/
theorem brL_of_not_mem {l : List Char} (h : '\n' ∉ l) : brL l = l := by
  induction l with
  | nil => rfl
  | cons c cs ih =>
    have hc : c ≠ '\n' := fun hcc => h (hcc ▸ List.mem_cons_self c cs)
    have hcs : '\n' ∉ cs := fun hmem => h (List.mem_cons_of_mem c hmem)
    simp [brL, hc, ih hcs]

/-- Escaping introduces no newline characters. -/
theorem nl_not_mem_escapeL {l : List Char} (h : '\n' ∉ l) :
    '\n' ∉ escapeL l := by
  rw [← List.count_eq_zero] at h ⊢
  rw [count_nl_escapeL, h]

/-- C1: every failure of a remote completion call or of the pipeline
orchestration is caught at the call site and returned as a plain error
string with a stable marker ("Groq Error: " for single completion calls,
"CrewAI Error: " for the pipeline); no exception propagates, and on a
pipeline failure the returned string is exactly the marked error message,
independent of any intermediate stage output. -/
theorem remote_failures_return_marked_errors :
    (∀ (key : String) (remote : Remote) (prompt model : String)
        (temp : Rat) (e : String),
        remote ⟨model, prompt, temp⟩ = Except.error e →
        (groq_chat (some key) remote prompt model temp).1 = "Groq Error: " ++ e) ∧
    (∀ (apiKey : Option String) (kick : Kickoff) (query : String)
        (role_hint : Option String) (e : String),
        (kick (crewai_crew apiKey query)).result = Except.error e →
        (run_crewai apiKey kick query role_hint).1 = "CrewAI Error: " ++ e) := by
  constructor
  · intro key remote prompt model temp e h
    simp [groq_chat, h]
  · intro apiKey kick query role_hint e h
    simp [run_crewai, h]

/-- Witness for C1: a remote oracle that always fails and an orchestration
runtime that fails while holding a stage-one output, evaluated at concrete
inputs. -/
theorem remote_failures_return_marked_errors_witness :
    ((fun _ : CompletionRequest => (Except.error "boom" : Except String String))
        ⟨"m", "p", 0⟩ = Except.error "boom" ∧
      (groq_chat (some "k") (fun _ => Except.error "boom") "p" "m" 0).1
        = "Groq Error: " ++ "boom") ∧
    (((fun _ : Crew =>
          (⟨Except.error "down", [], ["stage one text"]⟩ : KickoffOutcome))
        (crewai_crew (some "k") "q")).result = Except.error "down" ∧
      (run_crewai (some "k")
          (fun _ => ⟨Except.error "down", [], ["stage one text"]⟩)
          "q" none).1 = "CrewAI Error: " ++ "down") :=
  ⟨⟨rfl, remote_failures_return_marked_errors.1 "k" _ "p" "m" 0 "boom" rfl⟩,
   ⟨rfl, remote_failures_return_marked_errors.2 (some "k") _ "q" none "down" rfl⟩⟩

/-- C2: with no API credential configured (the client is absent) the
completion operation returns the fixed "not configured" message, with no
outbound request, deterministically for every prompt, model, temperature
and remote behaviour; being a total function it never raises. -/
theorem unconfigured_returns_fixed_message :
    ∀ (remote : Remote) (prompt model : String) (temperature : Rat),
      groq_chat none remote prompt model temperature
        = ("Groq is not configured. Add GROQ_API_KEY in .env.", []) := by
  intro remote prompt model temperature
  rfl

/-- C3: the pipeline run is observably identical for any two role-hint
values — the hint accepted by `run_crewai` is not threaded into the crew
or the result, so with the same orchestration oracle both runs return the
same answer and the same performed calls. -/
theorem role_hint_noninterference :
    ∀ (apiKey : Option String) (kick : Kickoff) (query : String)
      (rh1 rh2 : Option String),
      run_crewai apiKey kick query rh1 = run_crewai apiKey kick query rh2 := by
  intro apiKey kick query rh1 rh2
  rfl

/-- C4: every action whose required input is empty or whitespace-only
returns its user-visible validation message and performs zero outbound
completion requests; the underlying completion functions are never
invoked. -/
theorem blank_input_rejected_without_network :
    (∀ (client : Option String) (remote : Remote) (desc style : String),
        isBlank desc = true →
        tab1_generate client remote desc style
          = ("Please enter a description.", [])) ∧
    (∀ (client : Option String) (remote : Remote) (desc : String),
        isBlank desc = true →
        tab2_analyze client remote desc = ("Please enter a description.", [])) ∧
    (∀ (apiKey : Option String) (kick : Kickoff) (query roleHint : String),
        isBlank query = true →
        tab3_run apiKey kick query roleHint = ("Please enter a question.", [])) := by
  refine ⟨?_, ?_, ?_⟩
  · intro client remote desc style h
    simp [tab1_generate, h]
  · intro client remote desc h
    simp [tab2_analyze, h]
  · intro apiKey kick query roleHint h
    simp [tab3_run, h]

/-- Witness for C4: a whitespace-only description, a blank description and
an empty query, each with an oracle that would answer if it were called. -/
theorem blank_input_rejected_without_network_witness :
    (isBlank " \t" = true ∧
      tab1_generate (some "k") (fun _ => Except.ok "t") " \t" "s"
        = ("Please enter a description.", [])) ∧
    (isBlank " " = true ∧
      tab2_analyze (some "k") (fun _ => Except.ok "t") " "
        = ("Please enter a description.", [])) ∧
    (isBlank "" = true ∧
      tab3_run (some "k") (fun _ => ⟨Except.ok "t", [], []⟩) "" "hint"
        = ("Please enter a question.", [])) :=
  ⟨⟨by decide, blank_input_rejected_without_network.1 (some "k") _ " \t" "s" (by decide)⟩,
   ⟨by decide, blank_input_rejected_without_network.2.1 (some "k") _ " " (by decide)⟩,
   ⟨by decide, blank_input_rejected_without_network.2.2 (some "k") _ "" "hint" (by decide)⟩⟩

/-- C5: the art-prompt builder produces exactly the fixed expert
instruction, a blank line, "Description: " with the description, and
"Style: " with the style (the label appears even for an empty style); the
style-analysis builder produces the fixed critic instruction followed by
"Artwork: " and the description; both are functions, hence deterministic,
and on the lighthouse/watercolor example the built prompt contains the
required literal substrings. -/
theorem prompt_builders_layout :
    (∀ d s : String, buildArtPrompt d s
        = artPromptSystem ++ "\n\nDescription: " ++ d ++ "\nStyle: " ++ s) ∧
    (∀ d : String, buildStyleAnalysisPrompt d
        = styleAnalysisSystem ++ "\n\nArtwork: " ++ d) ∧
    containsStr (buildArtPrompt "a lone lighthouse at dusk" "watercolor")
      "Description: a lone lighthouse at dusk" ∧
    containsStr (buildArtPrompt "a lone lighthouse at dusk" "watercolor")
      "Style: watercolor" ∧
    containsStr (buildArtPrompt "a lone lighthouse at dusk" "watercolor")
      artPromptSystem := by
  refine ⟨fun d s => rfl, fun d => rfl,
    ⟨artPromptSystem ++ "\n\n", "\nStyle: watercolor", ?_⟩,
    ⟨artPromptSystem ++ "\n\nDescription: a lone lighthouse at dusk\n", "", ?_⟩,
    ⟨"", "\n\nDescription: a lone lighthouse at dusk\nStyle: watercolor", ?_⟩⟩ <;>
    rfl

/-- C6: the pipeline defines exactly three ordered stages with the fixed
personas "Art Director", "Style Expert" and "Photographer"; the first
stage's instruction embeds the caller's query verbatim, while the second
and third instructions are fixed strings independent of the query and of
any prior stage's output. -/
theorem pipeline_three_fixed_stages :
    ∀ (apiKey : Option String) (query : String),
      (crewai_crew apiKey query).agents.map Agent.name
          = ["Art Director", "Style Expert", "Photographer"] ∧
      (crewai_crew apiKey query).tasks.map Task.description
          = ["Create the core concept based on the user request: " ++ query,
             "Enhance the concept with lighting, color palette, style, and mood.",
             "Add camera, lens, frame, angle, and composition enhancements."] ∧
      (crewai_crew apiKey query).tasks.map (fun t => t.agent.name)
          = ["Art Director", "Style Expert", "Photographer"] := by
  intro apiKey query
  exact ⟨rfl, rfl, rfl⟩

/-- C7: the export escapes both title and body before insertion — the
story's paragraph texts are exactly the escaped title and the escaped,
line-broken body; decoding the escaped text recovers the raw input (so
special characters render literally), the escaped title contains no raw
markup brackets, and the body paragraph contains exactly one line-break
marker per newline of the body. -/
theorem export_escapes_and_breaks :
    ∀ title body : String,
      storyTexts (pdf_story title body) = [escape title, pdf_body_markup body] ∧
      unescapeL (escape title).data = title.data ∧
      unescapeL (escape body).data = body.data ∧
      '<' ∉ (escape title).data ∧ '>' ∉ (escape title).data ∧
      countBr (pdf_body_markup body).data = body.data.count '\n' := by
  intro title body
  exact ⟨rfl, unescapeL_escapeL _, unescapeL_escapeL _, lt_not_mem_escapeL _,
         gt_not_mem_escapeL _, countBr_markup body⟩

/-- C8: for every non-empty title and every body (the empty string and
arbitrarily long bodies included) the export returns a non-empty byte
stream; as a total function it cannot throw. -/
theorem export_nonempty :
    ∀ title body : String, title ≠ "" → generate_pdf title body ≠ [] := by
  intro title body _
  simp [generate_pdf, doc_build]

/-- Witness for C8: the export evaluated at the fixed title used by tab 1
and an empty body. -/
theorem export_nonempty_witness :
    "AI Art Prompt" ≠ "" ∧ generate_pdf "AI Art Prompt" "" ≠ [] :=
  ⟨by decide, export_nonempty "AI Art Prompt" "" (by decide)⟩

/-- C9: the prompt-generation caller sends its single request with
temperature 0.8 and the style-analysis caller with temperature 0.55, and
the former is strictly higher than the latter. -/
theorem caller_temperatures :
    (∀ (key : String) (remote : Remote) (d s : String),
        ((generate_art_prompt (some key) remote d s).2.map
            CompletionRequest.temperature) = [8/10]) ∧
    (∀ (key : String) (remote : Remote) (d : String),
        ((analyze_art_style (some key) remote d).2.map
            CompletionRequest.temperature) = [55/100]) ∧
    (55/100 : Rat) < 8/10 :=
  ⟨fun _ _ _ _ => rfl, fun _ _ _ => rfl, by norm_num⟩

/-- C10: escaping is applied to the body before newline replacement: on a
newline-free body the paragraph markup is exactly the escaped body (a
literal `<br/>` typed by the user is escaped to text) and it contains no
line-break marker at all — markers arise only from actual newline
characters. -/
theorem escape_precedes_linebreaks :
    ∀ body : String, '\n' ∉ body.data →
      pdf_body_markup body = escape body ∧
      countBr (pdf_body_markup body).data = 0 := by
  intro body h
  constructor
  · simp only [pdf_body_markup, escape]
    rw [brL_of_not_mem (nl_not_mem_escapeL h)]
  · rw [countBr_markup, List.count_eq_zero.mpr h]

/-- Witness for C10: a body containing a literal line-break marker but no
newline produces markup with zero line-break markers. -/
theorem escape_precedes_linebreaks_witness :
    ('\n' ∉ "x<br/>y".data) ∧
    (pdf_body_markup "x<br/>y" = escape "x<br/>y" ∧
      countBr (pdf_body_markup "x<br/>y").data = 0) :=
  ⟨by decide, escape_precedes_linebreaks "x<br/>y" (by decide)⟩

end ArtApp
